import Mathlib

/-!
Verification development for the PAROL6 keyframe proof-of-concept front-end.

The numeric model uses exact rationals in place of IEEE doubles: the claims
under study are algebraic and structural (axis swaps, sign conventions, unit
conversions, null-propagation, wire shapes), which the rational idealization
captures faithfully.

Two genuinely transcendental / irrational pieces of the Three.js pipeline are
abstracted as explicit parameters of the embedded functions rather than being
re-implemented:
  - the Euler-angle decomposition THREE.Euler.setFromQuaternion with the
    configured order, followed by the radian-to-degree conversion
    (parameter named eulerDeg), and
  - the constant quaternion obtained from Euler(-pi/2, 0, 0) and inverted
    (components cos(pi/4), -sin(pi/4), 0, 0, irrational), parameter named
    parentRotationInverse.
No claim depends on the numeric value of either; all claims are settled
uniformly in these parameters.
-/

/-- A 3-component vector of rationals, modelling THREE.Vector3. -/
@[ext]
structure Vec3 where
  x : ℚ
  y : ℚ
  z : ℚ
  deriving DecidableEq

/-- A quaternion of rationals, modelling THREE.Quaternion (w, x, y, z). -/
@[ext]
structure Quat where
  w : ℚ
  x : ℚ
  y : ℚ
  z : ℚ
  deriving DecidableEq

/-- Componentwise vector addition, modelling THREE.Vector3.add. -/
def vecAdd (a b : Vec3) : Vec3 :=
  { x := a.x + b.x, y := a.y + b.y, z := a.z + b.z }

/-- Hamilton product, modelling THREE.Quaternion.multiplyQuaternions(a, b). -/
def qmul (a b : Quat) : Quat :=
  { w := a.w * b.w - a.x * b.x - a.y * b.y - a.z * b.z
    x := a.x * b.w + a.w * b.x + a.y * b.z - a.z * b.y
    y := a.y * b.w + a.w * b.y + a.z * b.x - a.x * b.z
    z := a.z * b.w + a.w * b.z + a.x * b.y - a.y * b.x }

/-- Quaternion conjugate. -/
def qconj (q : Quat) : Quat :=
  { w := q.w, x := -q.x, y := -q.y, z := -q.z }

/-- The vector embedded as a pure quaternion. -/
def pureQuat (v : Vec3) : Quat :=
  { w := 0, x := v.x, y := v.y, z := v.z }

/-- The quaternion has unit norm (invariant of every rotation quaternion the
scene graph produces). -/
def unitQuat (q : Quat) : Prop :=
  q.w * q.w + q.x * q.x + q.y * q.y + q.z * q.z = 1

instance (q : Quat) : Decidable (unitQuat q) := by
  unfold unitQuat; infer_instance

/-- Rotation of a vector by a quaternion in the textbook form: the vector part
of q * (0, v) * conj q.  This is the reference meaning of the phrase
"rotating the offset with the quaternion". -/
def quatRotate (q : Quat) (v : Vec3) : Vec3 :=
  let r := qmul (qmul q (pureQuat v)) (qconj q)
  { x := r.x, y := r.y, z := r.z }

/-- Translation of THREE.Vector3.applyQuaternion(q) from the three.js source:
t = 2 * cross(q.xyz, v); result = v + q.w * t + cross(q.xyz, t). -/
def applyQuaternion (v : Vec3) (q : Quat) : Vec3 :=
  let tx := 2 * (q.y * v.z - q.z * v.y)
  let ty := 2 * (q.z * v.x - q.x * v.z)
  let tz := 2 * (q.x * v.y - q.y * v.x)
  { x := v.x + q.w * tx + q.y * tz - q.z * ty
    y := v.y + q.w * ty + q.z * tx - q.x * tz
    z := v.z + q.w * tz + q.x * ty - q.y * tx }

/-- A rigid transform: a position and a rotation quaternion, standing for the
translation and rotation parts of a THREE.Matrix4. -/
@[ext]
structure Transform3 where
  pos : Vec3
  quat : Quat
  deriving DecidableEq

/-- One scene-graph link of the URDF robot.  The field parent names the
nearest ancestor that is itself a links-dictionary entry (the intermediate
URDF joint and mesh objects of the scene graph are elided, as they are not
entries of robot.links); none at the base.  The field world is the world
transform implied by the current local transforms of the object and its
ancestors (what three.js recomputes on demand); matrixWorld is the cached
world matrix stored on the object, which may be stale until an update call
refreshes it. -/
@[ext]
structure Link where
  parent : Option String
  world : Transform3
  matrixWorld : Transform3
  deriving DecidableEq

/-- The URDF robot: its links dictionary, as an association list with the
unique string keys of the JS object. -/
@[ext]
structure URDFRobot where
  links : List (String × Link)
  deriving DecidableEq

/-- Property lookup urdfRobot.links[name]. -/
def getLink (r : URDFRobot) (name : String) : Option Link :=
  (r.links.find? (fun p => p.1 == name)).map Prod.snd

/-- Object3D.updateMatrixWorld(true): recompute the cached world matrix from
the current local state, i.e. refresh the cache to the current world
transform. -/
def updateMatrixWorld (l : Link) : Link :=
  { l with matrixWorld := l.world }

/-- Names of the ancestor links of the named link, walking the parent chain
through the links dictionary.  The fuel argument bounds the walk by the
number of entries, which is enough for any tree-shaped scene graph. -/
def ancestorNames (r : URDFRobot) : ℕ → String → List String
  | 0, _ => []
  | fuel + 1, name =>
    match getLink r name with
    | none => []
    | some l =>
      match l.parent with
      | none => []
      | some parentName => parentName :: ancestorNames r fuel parentName

/-- The links-dictionary entries whose cached world matrices the TCP
calculation rewrites when L6 resolves: the L6 entry itself (refreshed by
l6Link.updateMatrixWorld(true) and again by the getWorld* calls) and every
ancestor link of L6, whose caches are rewritten because getWorldPosition and
getWorldQuaternion call updateWorldMatrix(true, false), which recomputes the
cached matrix of each ancestor on the way down the chain. -/
def refreshedInTcpCall (r : URDFRobot) (name : String) : Bool :=
  name == "L6" || (ancestorNames r r.links.length ("L6")).contains name

/-- Tool-offset record from src/app/lib/tcpCalculations.ts (millimeters). -/
@[ext]
structure TCPOffset where
  x : ℚ
  y : ℚ
  z : ℚ
  deriving DecidableEq

/-- Cartesian pose from src/app/lib/types.ts: X, Y, Z in millimeters and
RX, RY, RZ in degrees. -/
@[ext]
structure CartesianPose where
  X : ℚ
  Y : ℚ
  Z : ℚ
  RX : ℚ
  RY : ℚ
  RZ : ℚ
  deriving DecidableEq

/-- Joint angles record from src/app/lib/types.ts (degrees). -/
@[ext]
structure JointAngles where
  J1 : ℚ
  J2 : ℚ
  J3 : ℚ
  J4 : ℚ
  J5 : ℚ
  J6 : ℚ
  deriving DecidableEq

/-- IK axis mask from src/app/lib/types.ts. -/
structure IkAxisMask where
  X : Bool
  Y : Bool
  Z : Bool
  RX : Bool
  RY : Bool
  RZ : Bool
  deriving DecidableEq

/-- Per-axis orientation offsets of ORIENTATION_CONFIG (degrees). -/
structure OrientationOffsets where
  RX : ℚ
  RY : ℚ
  RZ : ℚ
  deriving DecidableEq

/-- Shape of the ORIENTATION_CONFIG constant from src/app/lib/constants.ts. -/
structure OrientationConfig where
  offset : OrientationOffsets
  eulerOrder : String
  applyQuaternionTransform : Bool
  negateRX : Bool
  negateRY : Bool
  negateRZ : Bool

/-- ORIENTATION_CONFIG from src/app/lib/constants.ts. -/
def ORIENTATION_CONFIG : OrientationConfig :=
  { offset := { RX := 0, RY := 90, RZ := -180 }
    eulerOrder := "ZXY"
    applyQuaternionTransform := true
    negateRX := true
    negateRY := true
    negateRZ := false }

/-- Joint limit record from src/app/lib/types.ts. -/
structure JointLimit where
  min : ℚ
  max : ℚ
  deriving DecidableEq

/-- JOINT_LIMITS from src/app/lib/constants.ts (degrees). -/
def JOINT_LIMITS : List (String × JointLimit) :=
  [("J1", { min := -123.046875, max := 123.046875 }),
   ("J2", { min := -145.0088, max := -3.375 }),
   ("J3", { min := 107.866, max := 287.8675 }),
   ("J4", { min := -105.46975, max := 105.46975 }),
   ("J5", { min := -90, max := 90 }),
   ("J6", { min := 0, max := 360 })]

/-- Initial tcpOffset state of useRobotConfigStore in
src/app/lib/stores/robotConfigStore.ts (millimeters). -/
def robotConfigInitialTcpOffset : TCPOffset :=
  { x := 47, y := 0, z := -62 }

/-- The local tool offset vector built in calculateTcpPoseFromUrdf: the
millimeter offset divided by 1000 componentwise (mm to meters). -/
def localOffsetOf (tcpOffset : TCPOffset) : Vec3 :=
  { x := tcpOffset.x / 1000, y := tcpOffset.y / 1000, z := tcpOffset.z / 1000 }

/-- The per-axis sign/offset correction applied to the raw decomposed Euler
angles (degrees), lines 94-96 of src/app/lib/tcpCalculations.ts. -/
def orientationCorrection (rx_raw ry_raw rz_raw : ℚ) : ℚ × ℚ × ℚ :=
  ((if ORIENTATION_CONFIG.negateRX then -1 else 1) * (rx_raw - ORIENTATION_CONFIG.offset.RX),
   (if ORIENTATION_CONFIG.negateRY then -1 else 1) * (ry_raw - ORIENTATION_CONFIG.offset.RY),
   (if ORIENTATION_CONFIG.negateRZ then -1 else 1) * (rz_raw - ORIENTATION_CONFIG.offset.RZ))

/-- Embedding of calculateTcpPoseFromUrdf from src/app/lib/tcpCalculations.ts
(the current, Three.js Y-up version).

The function returns the pose together with the robot state after the call,
because the update calls mutate cached world matrices in place:
l6Link.updateMatrixWorld(true) refreshes the L6 link's own cache, and
getWorldPosition / getWorldQuaternion call updateWorldMatrix(true, false),
which also rewrites the cached matrix of every ancestor of L6; the net
effect on the links-dictionary entries (the refreshedInTcpCall set) is
modelled by rewriting those entries.  The parameter eulerDeg stands
for THREE.Euler.setFromQuaternion with ORIENTATION_CONFIG.eulerOrder followed
by the conversion to degrees; parentRotationInverse stands for the inverse of
the quaternion of Euler(-pi/2, 0, 0). -/
def calculateTcpPoseFromUrdf (eulerDeg : Quat → ℚ × ℚ × ℚ) (parentRotationInverse : Quat)
    (urdfRobot : URDFRobot) (tcpOffset : TCPOffset) : Option CartesianPose × URDFRobot :=
  match getLink urdfRobot ("L6") with
  | none => (none, urdfRobot)
  | some l6Link =>
    let l6 := updateMatrixWorld l6Link
    let robotAfter : URDFRobot :=
      { links := urdfRobot.links.map (fun p =>
          if refreshedInTcpCall urdfRobot p.1 then (p.1, updateMatrixWorld p.2) else p) }
    let l6WorldPosition := l6.matrixWorld.pos
    let l6WorldQuaternion := l6.matrixWorld.quat
    let localOffset := localOffsetOf tcpOffset
    let worldOffset := applyQuaternion localOffset l6WorldQuaternion
    let tcpWorldPosition := vecAdd l6WorldPosition worldOffset
    let quaternionToUse :=
      if ORIENTATION_CONFIG.applyQuaternionTransform then qmul parentRotationInverse l6WorldQuaternion
      else l6WorldQuaternion
    let raw := eulerDeg quaternionToUse
    let finalOri := orientationCorrection raw.1 raw.2.1 raw.2.2
    (some { X := tcpWorldPosition.x * 1000
            Y := tcpWorldPosition.y * 1000
            Z := tcpWorldPosition.z * 1000
            RX := finalOri.1
            RY := finalOri.2.1
            RZ := finalOri.2.2 },
     robotAfter)

/-- Embedding of the older calculateTcpPoseFromUrdf (robot Z-up version) from
the unnamed source file part_002; identical to the current version except for
the final coordinate swap Y := -z, Z := y. -/
def calculateTcpPoseFromUrdfOld (eulerDeg : Quat → ℚ × ℚ × ℚ) (parentRotationInverse : Quat)
    (urdfRobot : URDFRobot) (tcpOffset : TCPOffset) : Option CartesianPose × URDFRobot :=
  match getLink urdfRobot ("L6") with
  | none => (none, urdfRobot)
  | some l6Link =>
    let l6 := updateMatrixWorld l6Link
    let robotAfter : URDFRobot :=
      { links := urdfRobot.links.map (fun p =>
          if refreshedInTcpCall urdfRobot p.1 then (p.1, updateMatrixWorld p.2) else p) }
    let l6WorldPosition := l6.matrixWorld.pos
    let l6WorldQuaternion := l6.matrixWorld.quat
    let localOffset := localOffsetOf tcpOffset
    let worldOffset := applyQuaternion localOffset l6WorldQuaternion
    let tcpWorldPosition := vecAdd l6WorldPosition worldOffset
    let quaternionToUse :=
      if ORIENTATION_CONFIG.applyQuaternionTransform then qmul parentRotationInverse l6WorldQuaternion
      else l6WorldQuaternion
    let raw := eulerDeg quaternionToUse
    let finalOri := orientationCorrection raw.1 raw.2.1 raw.2.2
    (some { X := tcpWorldPosition.x * 1000
            Y := (-tcpWorldPosition.z) * 1000
            Z := tcpWorldPosition.y * 1000
            RX := finalOri.1
            RY := finalOri.2.1
            RZ := finalOri.2.2 },
     robotAfter)

/-- Default value of the tolerance parameter of tcpPosesAreDifferent. -/
def defaultTcpTolerance : ℚ := 0.01

/-- Embedding of tcpPosesAreDifferent from src/app/lib/tcpCalculations.ts. -/
def tcpPosesAreDifferent (pose1 pose2 : Option CartesianPose) (tolerance : ℚ) : Bool :=
  match pose1, pose2 with
  | some p1, some p2 =>
    decide (|p1.X - p2.X| > tolerance) ||
    decide (|p1.Y - p2.Y| > tolerance) ||
    decide (|p1.Z - p2.Z| > tolerance) ||
    decide (|p1.RX - p2.RX| > tolerance) ||
    decide (|p1.RY - p2.RY| > tolerance) ||
    decide (|p1.RZ - p2.RZ| > tolerance)
  | _, _ => true

/-- Embedding of frontendToBackendCoordinates from src/app/lib/api.ts. -/
def frontendToBackendCoordinates (frontendPose : CartesianPose) : List ℚ :=
  let backendX := frontendPose.X / 1000
  let backendY := frontendPose.Z / 1000
  let backendZ := (-frontendPose.Y) / 1000
  let backendRX := -frontendPose.RX
  let backendRY := ORIENTATION_CONFIG.offset.RY - frontendPose.RY
  let backendRZ := frontendPose.RZ - ORIENTATION_CONFIG.offset.RZ
  [backendX * 1000, backendY * 1000, backendZ * 1000, backendRX, backendRY, backendRZ]

/-- Shape of the JSON body solveIKBackend posts to /api/ik. -/
structure IKRequestBody where
  target_pose : List ℚ
  target_quaternion : Option (List ℚ)
  current_joints : List ℚ
  axis_mask : Option (List ℕ)

/-- Embedding of the target-quaternion extraction inside solveIKBackend
(src/app/lib/api.ts lines 96-133): resolve L6 on the optional target robot,
refresh its world matrix, read the world quaternion, premultiply by
parentRotationInverse when the config enables it, and serialize [w,x,y,z]. -/
def extractTargetQuaternion (parentRotationInverse : Quat)
    (targetRobotRef : Option URDFRobot) : Option (List ℚ) :=
  match targetRobotRef with
  | none => none
  | some robot =>
    match getLink robot ("L6") with
    | none => none
    | some l6Link =>
      let l6 := updateMatrixWorld l6Link
      let l6WorldQuaternion := l6.matrixWorld.quat
      let quaternionToUse :=
        if ORIENTATION_CONFIG.applyQuaternionTransform then qmul parentRotationInverse l6WorldQuaternion
        else l6WorldQuaternion
      some [quaternionToUse.w, quaternionToUse.x, quaternionToUse.y, quaternionToUse.z]

/-- Embedding of the request-body construction of solveIKBackend
(src/app/lib/api.ts lines 66-94 and 141-146). -/
def ikRequestBody (parentRotationInverse : Quat) (targetPose : CartesianPose)
    (currentJoints : JointAngles) (axisMask : Option IkAxisMask)
    (targetRobotRef : Option URDFRobot) : IKRequestBody :=
  { target_pose := [targetPose.X, targetPose.Y, targetPose.Z,
                    targetPose.RX, targetPose.RY, targetPose.RZ]
    target_quaternion := extractTargetQuaternion parentRotationInverse targetRobotRef
    current_joints := [currentJoints.J1, currentJoints.J2, currentJoints.J3,
                       currentJoints.J4, currentJoints.J5, currentJoints.J6]
    axis_mask := axisMask.map (fun m =>
      [if m.X then 1 else 0, if m.Y then 1 else 0, if m.Z then 1 else 0,
       if m.RX then 1 else 0, if m.RY then 1 else 0, if m.RZ then 1 else 0]) }

/-- The parsed JSON body of a backend /api/ik response.  Absent or null
fields are none; an empty joints array is some []. -/
structure IKResponseData where
  success : Bool
  joints : Option (List ℚ)
  error : Option String
  iterations : Option ℕ
  residual : Option ℚ
  deriving DecidableEq

/-- Outcome of the fetch to the backend, the input state of the response
handling in solveIKBackend: the request (or .json()) threw (carrying some
message when the thrown value is an Error instance), or the HTTP response was
not ok, or a JSON body was obtained. -/
inductive FetchOutcome where
  | threw (message : Option String)
  | badStatus (status : ℕ) (statusText : String)
  | ok (data : IKResponseData)
  deriving DecidableEq

/-- Joint angles as read off the backend response array: element i of the JS
array, which is undefined (none) when the array is too short. -/
structure BackendJoints where
  J1 : Option ℚ
  J2 : Option ℚ
  J3 : Option ℚ
  J4 : Option ℚ
  J5 : Option ℚ
  J6 : Option ℚ
  deriving DecidableEq

/-- data.joints[0] .. data.joints[5] in order. -/
def jointsOfArray (arr : List ℚ) : BackendJoints :=
  { J1 := arr[0]?, J2 := arr[1]?, J3 := arr[2]?, J4 := arr[3]?, J5 := arr[4]?, J6 := arr[5]? }

/-- IKResult from src/app/lib/api.ts. -/
structure IKResult where
  success : Bool
  joints : Option BackendJoints
  error : Option String
  iterations : Option ℕ
  residual : Option ℚ
  source : String
  deriving DecidableEq

/-- The JS short-circuit a || b on an optional string: falls back when the
string is absent, null or empty. -/
def jsOr (s : Option String) (dflt : String) : String :=
  match s with
  | some v => if v = "" then dflt else v
  | none => dflt

/-- Embedding of the response/exception handling of solveIKBackend
(src/app/lib/api.ts lines 149-190), as a function of the fetch outcome.
A non-ok response throws "Backend IK request failed: status statusText", which
the catch block turns into the error string; a thrown Error contributes its own
message (the catch substitutes "Unknown error" only for non-Error values). -/
def solveIKBackend (outcome : FetchOutcome) : IKResult :=
  match outcome with
  | FetchOutcome.threw m =>
    { success := false, joints := none, error := some (m.getD ("Unknown error")),
      iterations := none, residual := none, source := "backend" }
  | FetchOutcome.badStatus status statusText =>
    { success := false, joints := none,
      error := some ("Backend IK request failed: " ++ toString status ++ " " ++ statusText),
      iterations := none, residual := none, source := "backend" }
  | FetchOutcome.ok data =>
    match data.success, data.joints with
    | true, some arr =>
      { success := true, joints := some (jointsOfArray arr), error := none,
        iterations := data.iterations, residual := data.residual, source := "backend" }
    | _, _ =>
      { success := false, joints := none,
        error := some (jsOr data.error ("IK solution failed")),
        iterations := data.iterations, residual := none, source := "backend" }

/-- Identity quaternion, used as a concrete instantiation of the
parentRotationInverse parameter in concrete evaluations. -/
def idQuat : Quat := { w := 1, x := 0, y := 0, z := 0 }

/-- A concrete instantiation of the eulerDeg parameter. -/
def zeroEuler : Quat → ℚ × ℚ × ℚ := fun _ => (0, 0, 0)

/-- Concrete link whose cache agrees with its world transform. -/
def l6LinkW : Link :=
  { parent := none
    world := { pos := { x := 1, y := 2, z := 3 }, quat := idQuat }
    matrixWorld := { pos := { x := 1, y := 2, z := 3 }, quat := idQuat } }

/-- Concrete robot for witness evaluations. -/
def robotW : URDFRobot := { links := [("L6", l6LinkW)] }

/-- Concrete tool offset for witness evaluations (millimeters). -/
def offW : TCPOffset := { x := 1000, y := 0, z := 0 }

/-- Concrete link whose cached world matrix is stale: the cache differs from
the transform implied by the current joint state. -/
def staleL6 : Link :=
  { parent := none
    world := { pos := { x := 1, y := 2, z := 3 }, quat := idQuat }
    matrixWorld := { pos := { x := 0, y := 0, z := 0 }, quat := idQuat } }

/-- Concrete robot with a stale L6 cache. -/
def staleRobot : URDFRobot := { links := [("L6", staleL6)] }

/-- Concrete ancestor link with a stale cache, parent of the terminal link in
chainRobot. -/
def l5LinkC : Link :=
  { parent := none
    world := { pos := { x := 0, y := 1, z := 0 }, quat := idQuat }
    matrixWorld := { pos := { x := 0, y := 0, z := 0 }, quat := idQuat } }

/-- Concrete terminal link of chainRobot, child of L5. -/
def l6LinkC : Link :=
  { parent := some ("L5")
    world := { pos := { x := 0, y := 2, z := 0 }, quat := idQuat }
    matrixWorld := { pos := { x := 0, y := 0, z := 0 }, quat := idQuat } }

/-- Concrete two-link kinematic chain L5 -> L6 with stale caches on both
entries. -/
def chainRobot : URDFRobot := { links := [("L5", l5LinkC), ("L6", l6LinkC)] }

/-- Concrete successful backend response body. -/
def goodData : IKResponseData :=
  { success := true, joints := some [10, 20, 30, 40, 50, 60], error := none,
    iterations := some 5, residual := some (1 / 100) }

/-- Concrete pose for witness evaluations. -/
def poseW : CartesianPose := { X := 1, Y := 2, Z := 3, RX := 4, RY := 5, RZ := 6 }

/-- The optimized three.js rotation formula agrees with quaternion conjugation
for unit quaternions. -/
theorem applyQuaternion_eq_quatRotate (q : Quat) (v : Vec3) (h : unitQuat q) :
    applyQuaternion v q = quatRotate q v := by
  obtain ⟨w, x, y, z⟩ := q
  obtain ⟨vx, vy, vz⟩ := v
  unfold unitQuat at h
  simp only at h
  simp only [applyQuaternion, quatRotate, qmul, pureQuat, qconj]
  ext
  · simp only
    linear_combination (-vx) * h
  · simp only
    linear_combination (-vy) * h
  · simp only
    linear_combination (-vz) * h

/-- C1: whenever the L6 link resolves, calculateTcpPoseFromUrdf returns a pose
whose X, Y, Z components are 1000 times the vector obtained by rotating the
tool offset divided by 1000 with L6's world quaternion and adding it to L6's
world position. -/
theorem tcp_position_from_link (eulerDeg : Quat → ℚ × ℚ × ℚ) (parentRotationInverse : Quat)
    (robot : URDFRobot) (off : TCPOffset) (l6 : Link)
    (h : getLink robot ("L6") = some l6) (hq : unitQuat l6.world.quat) :
    ((calculateTcpPoseFromUrdf eulerDeg parentRotationInverse robot off).1.map CartesianPose.X
        = some (1000 * (vecAdd l6.world.pos (quatRotate l6.world.quat (localOffsetOf off))).x))
    ∧ ((calculateTcpPoseFromUrdf eulerDeg parentRotationInverse robot off).1.map CartesianPose.Y
        = some (1000 * (vecAdd l6.world.pos (quatRotate l6.world.quat (localOffsetOf off))).y))
    ∧ ((calculateTcpPoseFromUrdf eulerDeg parentRotationInverse robot off).1.map CartesianPose.Z
        = some (1000 * (vecAdd l6.world.pos (quatRotate l6.world.quat (localOffsetOf off))).z)) := by
  have hrot := applyQuaternion_eq_quatRotate l6.world.quat (localOffsetOf off) hq
  unfold calculateTcpPoseFromUrdf
  rw [h]
  simp only [updateMatrixWorld, Option.map_some']
  rw [hrot]
  refine ⟨?_, ?_, ?_⟩ <;> simp [mul_comm]

/-- C1 witness: concrete evaluation of the position theorem on a one-link
robot with the identity world rotation. -/
theorem tcp_position_from_link_witness :
    getLink robotW ("L6") = some l6LinkW
    ∧ unitQuat l6LinkW.world.quat
    ∧ (((calculateTcpPoseFromUrdf zeroEuler idQuat robotW offW).1.map CartesianPose.X
          = some (1000 * (vecAdd l6LinkW.world.pos (quatRotate l6LinkW.world.quat (localOffsetOf offW))).x))
       ∧ ((calculateTcpPoseFromUrdf zeroEuler idQuat robotW offW).1.map CartesianPose.Y
          = some (1000 * (vecAdd l6LinkW.world.pos (quatRotate l6LinkW.world.quat (localOffsetOf offW))).y))
       ∧ ((calculateTcpPoseFromUrdf zeroEuler idQuat robotW offW).1.map CartesianPose.Z
          = some (1000 * (vecAdd l6LinkW.world.pos (quatRotate l6LinkW.world.quat (localOffsetOf offW))).z))) :=
  ⟨rfl, by norm_num [unitQuat, l6LinkW, idQuat],
   tcp_position_from_link zeroEuler idQuat robotW offW l6LinkW rfl
     (by norm_num [unitQuat, l6LinkW, idQuat])⟩

/-- C3: the embedded calculateTcpPoseFromUrdf is total and returns a pose
exactly when the L6 link resolves; the try/catch of the source is modelled by
totality of the embedding, and the absent-link early return by the none
branch. -/
theorem tcp_none_iff_no_link (eulerDeg : Quat → ℚ × ℚ × ℚ) (parentRotationInverse : Quat)
    (robot : URDFRobot) (off : TCPOffset) :
    ((calculateTcpPoseFromUrdf eulerDeg parentRotationInverse robot off).1).isSome
      = (getLink robot ("L6")).isSome := by
  cases h : getLink robot ("L6") with
  | none => simp [calculateTcpPoseFromUrdf, h]
  | some l6 => simp [calculateTcpPoseFromUrdf, h]

/-- C4 (amended): the call is a pure read of the logical link state — every
link keeps its name, its parent, and its current world transform, and a
robot without an L6 entry is returned untouched — but it is not
mutation-free: when L6 resolves, the cached world matrices of the L6 entry
and of every ancestor link of L6 are refreshed in place to the current world
transforms, by updateMatrixWorld(true) on L6 and by the
updateWorldMatrix(true, false) walk inside getWorldPosition and
getWorldQuaternion. -/
theorem tcp_mutates_only_caches (eulerDeg : Quat → ℚ × ℚ × ℚ) (parentRotationInverse : Quat)
    (robot : URDFRobot) (off : TCPOffset) :
    (getLink robot ("L6") = none →
        (calculateTcpPoseFromUrdf eulerDeg parentRotationInverse robot off).2 = robot)
    ∧ ((getLink robot ("L6")).isSome →
        ((calculateTcpPoseFromUrdf eulerDeg parentRotationInverse robot off).2).links
          = robot.links.map (fun p =>
              if refreshedInTcpCall robot p.1 then (p.1, updateMatrixWorld p.2) else p))
    ∧ ((calculateTcpPoseFromUrdf eulerDeg parentRotationInverse robot off).2).links.map
          (fun p => (p.1, p.2.parent, p.2.world))
        = robot.links.map (fun p => (p.1, p.2.parent, p.2.world)) := by
  cases h : getLink robot ("L6") with
  | none =>
    refine ⟨fun _ => ?_, fun hc => ?_, ?_⟩
    · simp [calculateTcpPoseFromUrdf, h]
    · simp at hc
    · simp [calculateTcpPoseFromUrdf, h]
  | some l6 =>
    refine ⟨fun hc => ?_, fun _ => ?_, ?_⟩
    · simp at hc
    · simp [calculateTcpPoseFromUrdf, h]
    · simp only [calculateTcpPoseFromUrdf, h, List.map_map]
      apply List.map_congr_left
      intro p _
      by_cases hp : refreshedInTcpCall robot p.1 <;>
        simp [hp, updateMatrixWorld, Function.comp]

/-- C4 witness: concrete evaluation on a two-link chain with stale caches —
both the L6 entry and its ancestor L5 come back with refreshed cached
matrices, everything else unchanged. -/
theorem tcp_mutates_only_caches_witness :
    ((calculateTcpPoseFromUrdf zeroEuler idQuat chainRobot robotConfigInitialTcpOffset).2).links
      = chainRobot.links.map (fun p =>
          if refreshedInTcpCall chainRobot p.1 then (p.1, updateMatrixWorld p.2) else p) :=
  (tcp_mutates_only_caches zeroEuler idQuat chainRobot robotConfigInitialTcpOffset).2.1 rfl

/-- C4 counterexample: on a robot whose L6 cached world matrix is stale, the
robot object after the call differs from the one supplied, refuting that
every field (including cached transform matrices) is unchanged. -/
theorem tcp_mutation_cex :
    (calculateTcpPoseFromUrdf zeroEuler idQuat staleRobot { x := 0, y := 0, z := 0 }).2
      ≠ staleRobot := by
  simp [calculateTcpPoseFromUrdf, getLink, staleRobot, staleL6, updateMatrixWorld,
    refreshedInTcpCall, ancestorNames, URDFRobot.ext_iff, Link.ext_iff, Transform3.ext_iff,
    Vec3.ext_iff]

/-- C8: the current (Three.js Y-up) and older (robot Z-up) versions of
calculateTcpPoseFromUrdf agree on nullness and on the X, RX, RY, RZ
components, and their positions are related by the fixed frame swap
oldY = -newZ, oldZ = newY, for every robot, offset, and orientation
pipeline. -/
theorem tcp_old_new_relation (eulerDeg : Quat → ℚ × ℚ × ℚ) (parentRotationInverse : Quat)
    (robot : URDFRobot) (off : TCPOffset) :
    ((calculateTcpPoseFromUrdfOld eulerDeg parentRotationInverse robot off).1).isSome
        = ((calculateTcpPoseFromUrdf eulerDeg parentRotationInverse robot off).1).isSome
    ∧ (calculateTcpPoseFromUrdfOld eulerDeg parentRotationInverse robot off).1.map CartesianPose.X
        = (calculateTcpPoseFromUrdf eulerDeg parentRotationInverse robot off).1.map CartesianPose.X
    ∧ (calculateTcpPoseFromUrdfOld eulerDeg parentRotationInverse robot off).1.map CartesianPose.RX
        = (calculateTcpPoseFromUrdf eulerDeg parentRotationInverse robot off).1.map CartesianPose.RX
    ∧ (calculateTcpPoseFromUrdfOld eulerDeg parentRotationInverse robot off).1.map CartesianPose.RY
        = (calculateTcpPoseFromUrdf eulerDeg parentRotationInverse robot off).1.map CartesianPose.RY
    ∧ (calculateTcpPoseFromUrdfOld eulerDeg parentRotationInverse robot off).1.map CartesianPose.RZ
        = (calculateTcpPoseFromUrdf eulerDeg parentRotationInverse robot off).1.map CartesianPose.RZ
    ∧ (calculateTcpPoseFromUrdfOld eulerDeg parentRotationInverse robot off).1.map CartesianPose.Y
        = (calculateTcpPoseFromUrdf eulerDeg parentRotationInverse robot off).1.map (fun p => -(p.Z))
    ∧ (calculateTcpPoseFromUrdfOld eulerDeg parentRotationInverse robot off).1.map CartesianPose.Z
        = (calculateTcpPoseFromUrdf eulerDeg parentRotationInverse robot off).1.map CartesianPose.Y := by
  cases h : getLink robot ("L6") with
  | none => simp [calculateTcpPoseFromUrdf, calculateTcpPoseFromUrdfOld, h]
  | some l6 =>
    simp [calculateTcpPoseFromUrdf, calculateTcpPoseFromUrdfOld, h, neg_mul]

/-- C2: the fixed orientation-convention constants equal the spec's values:
extraction order ZXY, offsets (0, 90, -180) with sign flips
(negate, negate, keep) so the correction maps raw angles (rx, ry, rz) to
(-(rx - 0), -(ry - 90), rz + 180), and the default tool offset state is
(47, 0, -62) mm. -/
theorem orientation_constants :
    ORIENTATION_CONFIG.eulerOrder = "ZXY"
    ∧ ORIENTATION_CONFIG.offset.RX = 0
    ∧ ORIENTATION_CONFIG.offset.RY = 90
    ∧ ORIENTATION_CONFIG.offset.RZ = -180
    ∧ ORIENTATION_CONFIG.negateRX = true
    ∧ ORIENTATION_CONFIG.negateRY = true
    ∧ ORIENTATION_CONFIG.negateRZ = false
    ∧ (∀ rx ry rz : ℚ, orientationCorrection rx ry rz = (-(rx - 0), -(ry - 90), rz + 180))
    ∧ robotConfigInitialTcpOffset = { x := 47, y := 0, z := -62 } := by
  refine ⟨rfl, rfl, rfl, rfl, rfl, rfl, rfl, ?_, rfl⟩
  intro rx ry rz
  unfold orientationCorrection ORIENTATION_CONFIG
  norm_num

/-- C7: the static joint-limit table equals the spec's table for all six
joints. -/
theorem joint_limits_table :
    (JOINT_LIMITS.find? (fun p => p.1 == "J1")).map Prod.snd
        = some { min := -123.046875, max := 123.046875 }
    ∧ (JOINT_LIMITS.find? (fun p => p.1 == "J2")).map Prod.snd
        = some { min := -145.0088, max := -3.375 }
    ∧ (JOINT_LIMITS.find? (fun p => p.1 == "J3")).map Prod.snd
        = some { min := 107.866, max := 287.8675 }
    ∧ (JOINT_LIMITS.find? (fun p => p.1 == "J4")).map Prod.snd
        = some { min := -105.46975, max := 105.46975 }
    ∧ (JOINT_LIMITS.find? (fun p => p.1 == "J5")).map Prod.snd
        = some { min := -90, max := 90 }
    ∧ (JOINT_LIMITS.find? (fun p => p.1 == "J6")).map Prod.snd
        = some { min := 0, max := 360 } :=
  ⟨rfl, rfl, rfl, rfl, rfl, rfl⟩

/-- C10: tcpPosesAreDifferent returns true whenever either pose is null, and
for every pose and nonnegative tolerance (the default 0.01 included),
comparing a pose with itself returns false. -/
theorem tcpPosesAreDifferent_null_and_refl :
    (∀ (pose2 : Option CartesianPose) (tolerance : ℚ),
        tcpPosesAreDifferent none pose2 tolerance = true)
    ∧ (∀ (pose1 : Option CartesianPose) (tolerance : ℚ),
        tcpPosesAreDifferent pose1 none tolerance = true)
    ∧ (∀ (p : CartesianPose) (tolerance : ℚ), 0 ≤ tolerance →
        tcpPosesAreDifferent (some p) (some p) tolerance = false)
    ∧ (∀ p : CartesianPose,
        tcpPosesAreDifferent (some p) (some p) defaultTcpTolerance = false) := by
  have hrefl : ∀ (p : CartesianPose) (t : ℚ), 0 ≤ t →
      tcpPosesAreDifferent (some p) (some p) t = false := by
    intro p t ht
    simp [tcpPosesAreDifferent, sub_self, abs_zero, not_lt.mpr ht]
  refine ⟨?_, ?_, hrefl, fun p => hrefl p defaultTcpTolerance (by norm_num [defaultTcpTolerance])⟩
  · intro pose2 t
    cases pose2 <;> rfl
  · intro pose1 t
    cases pose1 <;> rfl

/-- C10 witness: concrete reflexive comparison at the default tolerance. -/
theorem tcpPosesAreDifferent_witness :
    tcpPosesAreDifferent (some poseW) (some poseW) defaultTcpTolerance = false :=
  tcpPosesAreDifferent_null_and_refl.2.2.1 poseW defaultTcpTolerance
    (by norm_num [defaultTcpTolerance])

/-- C9 (amended): composing the pose extractor's orientation correction with
frontendToBackendCoordinates returns rx and ry exactly, but the third
orientation slot returns rz + 360 (the same rotation one full turn later),
because the conversion adds 180 to RZ instead of subtracting it. -/
theorem f2b_orientation_roundtrip (rx ry rz pX pY pZ : ℚ) :
    (frontendToBackendCoordinates
        { X := pX, Y := pY, Z := pZ
          RX := (orientationCorrection rx ry rz).1
          RY := (orientationCorrection rx ry rz).2.1
          RZ := (orientationCorrection rx ry rz).2.2 })[3]? = some rx
    ∧ (frontendToBackendCoordinates
        { X := pX, Y := pY, Z := pZ
          RX := (orientationCorrection rx ry rz).1
          RY := (orientationCorrection rx ry rz).2.1
          RZ := (orientationCorrection rx ry rz).2.2 })[4]? = some ry
    ∧ (frontendToBackendCoordinates
        { X := pX, Y := pY, Z := pZ
          RX := (orientationCorrection rx ry rz).1
          RY := (orientationCorrection rx ry rz).2.1
          RZ := (orientationCorrection rx ry rz).2.2 })[5]? = some (rz + 360) := by
  refine ⟨?_, ?_, ?_⟩ <;>
    (simp [frontendToBackendCoordinates, orientationCorrection, ORIENTATION_CONFIG]; try ring_nf)

/-- C9 counterexample: at raw angles (0, 0, 0) the conversion puts 360, not 0,
in the third orientation slot, so the round trip is not the exact identity
claimed. -/
theorem f2b_orientation_roundtrip_cex :
    (frontendToBackendCoordinates
        { X := 0, Y := 0, Z := 0
          RX := (orientationCorrection 0 0 0).1
          RY := (orientationCorrection 0 0 0).2.1
          RZ := (orientationCorrection 0 0 0).2.2 })[5]? = some 360
    ∧ (360 : ℚ) ≠ 0 := by
  norm_num [frontendToBackendCoordinates, orientationCorrection, ORIENTATION_CONFIG]

/-- C6: the request body of solveIKBackend carries the target pose as
[X, Y, Z, RX, RY, RZ], the current joints as [J1..J6], and, when a mask is
provided, the axis mask as six integers in the order X, Y, Z, RX, RY, RZ
that are 1 exactly for the enabled axes and 0 for the disabled ones. -/
theorem ik_request_wire_shape (parentRotationInverse : Quat) (targetPose : CartesianPose)
    (currentJoints : JointAngles) (axisMask : Option IkAxisMask)
    (targetRobotRef : Option URDFRobot) :
    (ikRequestBody parentRotationInverse targetPose currentJoints axisMask targetRobotRef).target_pose
        = [targetPose.X, targetPose.Y, targetPose.Z, targetPose.RX, targetPose.RY, targetPose.RZ]
    ∧ (ikRequestBody parentRotationInverse targetPose currentJoints axisMask targetRobotRef).current_joints
        = [currentJoints.J1, currentJoints.J2, currentJoints.J3,
           currentJoints.J4, currentJoints.J5, currentJoints.J6]
    ∧ (ikRequestBody parentRotationInverse targetPose currentJoints axisMask targetRobotRef).axis_mask
        = axisMask.map (fun m =>
            [if m.X then 1 else 0, if m.Y then 1 else 0, if m.Z then 1 else 0,
             if m.RX then 1 else 0, if m.RY then 1 else 0, if m.RZ then 1 else 0]) :=
  ⟨rfl, rfl, rfl⟩

/-- The JS fallback on the failure-branch error message never yields the empty
string, because the literal fallback is non-empty and the empty string is
falsy. -/
theorem jsOr_ik_failed_ne_empty (s : Option String) : jsOr s ("IK solution failed") ≠ "" := by
  cases s with
  | none => simp [jsOr]
  | some v =>
    by_cases hv : v = "" <;> simp [jsOr, hv]

/-- The error message built from a non-ok HTTP response is never empty. -/
theorem badStatus_message_ne_empty (a b : String) :
    ("Backend IK request failed: " ++ a ++ " " ++ b) ≠ "" := by
  intro hcontra
  have hlen := congrArg String.length hcontra
  simp [String.length_append] at hlen
  exact absurd hlen.1.1.1 (by decide)

/-- C5 (amended): every IKResult of solveIKBackend has joints present exactly
when success is true; on success from a backend body with success and a
joints array, the six joints are read from array elements 0..5 in order; on
every failure path joints are absent and an error string is present, and that
string is non-empty except when the caught exception is an Error carrying an
empty message, in which case the empty message itself is returned. -/
theorem ik_result_shape (o : FetchOutcome) :
    ((solveIKBackend o).joints.isSome = (solveIKBackend o).success)
    ∧ ((solveIKBackend o).success = false →
        (solveIKBackend o).joints = none
        ∧ ∃ s, (solveIKBackend o).error = some s
            ∧ (s ≠ "" ∨ o = FetchOutcome.threw (some "")))
    ∧ (∀ d arr, o = FetchOutcome.ok d → d.success = true → d.joints = some arr →
        (solveIKBackend o).success = true
        ∧ (solveIKBackend o).joints = some (jointsOfArray arr)) := by
  cases o with
  | threw m =>
    refine ⟨rfl, fun _ => ⟨rfl, ?_⟩, fun d arr hok => by simp at hok⟩
    cases m with
    | none => exact ⟨"Unknown error", rfl, Or.inl (by simp)⟩
    | some s =>
      by_cases hs : s = ""
      · subst hs
        exact ⟨"", rfl, Or.inr rfl⟩
      · exact ⟨s, rfl, Or.inl hs⟩
  | badStatus status statusText =>
    exact ⟨rfl, fun _ => ⟨rfl, ⟨_, rfl, Or.inl (badStatus_message_ne_empty _ _)⟩⟩,
      fun d arr hok => by simp at hok⟩
  | ok d =>
    rcases hs : d.success with _ | _
    · refine ⟨?_, ?_, ?_⟩
      · simp [solveIKBackend, hs]
      · intro _
        refine ⟨by simp [solveIKBackend, hs], ?_⟩
        exact ⟨jsOr d.error ("IK solution failed"), by simp [solveIKBackend, hs],
          Or.inl (jsOr_ik_failed_ne_empty _)⟩
      · intro d' arr hok hsucc hjoints
        injection hok with hd
        subst hd
        simp [hs] at hsucc
    · rcases hj : d.joints with _ | arr0
      · refine ⟨?_, ?_, ?_⟩
        · simp [solveIKBackend, hs, hj]
        · intro _
          refine ⟨by simp [solveIKBackend, hs, hj], ?_⟩
          exact ⟨jsOr d.error ("IK solution failed"), by simp [solveIKBackend, hs, hj],
            Or.inl (jsOr_ik_failed_ne_empty _)⟩
        · intro d' arr hok hsucc hjoints
          injection hok with hd
          subst hd
          simp [hj] at hjoints
      · refine ⟨by simp [solveIKBackend, hs, hj], ?_, ?_⟩
        · intro hfail
          rw [show (solveIKBackend (FetchOutcome.ok d)).success = true by
            simp [solveIKBackend, hs, hj]] at hfail
          exact absurd hfail (by simp)
        · intro d' arr hok hsucc hjoints
          injection hok with hd
          subst hd
          rw [hj] at hjoints
          have harr : arr0 = arr := by injection hjoints
          subst harr
          exact ⟨by simp [solveIKBackend, hs, hj], by simp [solveIKBackend, hs, hj]⟩

/-- C5 witness: concrete successful response, joints populated from the array
elements in order. -/
theorem ik_result_shape_witness :
    (solveIKBackend (FetchOutcome.ok goodData)).success = true
    ∧ (solveIKBackend (FetchOutcome.ok goodData)).joints
        = some (jointsOfArray [10, 20, 30, 40, 50, 60]) :=
  (ik_result_shape (FetchOutcome.ok goodData)).2.2 goodData [10, 20, 30, 40, 50, 60] rfl rfl rfl

/-- C5 counterexample: a thrown Error whose message is the empty string is a
failure path whose resulting error string is empty, refuting the claim that
every failure carries a non-empty error string. -/
theorem ik_result_empty_error_cex :
    (solveIKBackend (FetchOutcome.threw (some ("")))).success = false
    ∧ (solveIKBackend (FetchOutcome.threw (some ("")))).error = some ("")
    ∧ ("" : String).length = 0 :=
  ⟨rfl, rfl, rfl⟩
